import Mathlib

/-!
Verification of the HackHarvard25 fact-checking pipeline (Python backend
services).  Python strings are embedded as `List Char`, Python `None` as
`Option`, exceptions as `Except`, and each service function is translated
from its source file:

* `src/backend/services/test_votify.py` — `VotifyAnalyzer._parse_response`
  and the best-attempt selection logic of
  `TestReloopMechanism.test_best_attempt_selection_logic`;
* `src/backend/services/check_bias.py` — `check_bias` and its CLI entry;
* `src/backend/services/bias_checker.py` — the decision rules stated in
  `BIAS_CHECKER_PROMPT`;
* `src/backend/services/stock_analyzer.py` — `get_ticker_for_industry`;
* `src/backend/services/validate_promise.py` — `validate_promise`.
-/

/-- A Python string, embedded as its list of characters. -/
abbrev PyStr := List Char

/-- Coerce a Lean string literal to the `List Char` embedding. -/
def pystr (s : String) : PyStr := s.data

/-- Python `needle in hay` (substring containment, `str.__contains__`). -/
def pyIn (needle : PyStr) : PyStr → Bool
  | [] => needle.isEmpty
  | c :: rest => needle.isPrefixOf (c :: rest) || pyIn needle rest

/-- The text before the first occurrence of `sep`, i.e. Python
`hay.split(sep)[0]` for a non-empty separator (when `sep` does not occur,
Python returns the whole string, as does this function). -/
def beforeFirst (sep : PyStr) : PyStr → PyStr
  | [] => []
  | c :: rest => if sep.isPrefixOf (c :: rest) then [] else c :: beforeFirst sep rest

/-- Characters treated as whitespace by Python `str.strip()` / `str.split()`
(the ASCII part of `str.isspace`). -/
def pyIsSpace (c : Char) : Bool :=
  c = ' ' || c = '\t' || c = '\n' || c = '\r' || c = '\x0b' || c = '\x0c'

/-- Python `s.strip()`: remove leading and trailing whitespace. -/
def pyStrip (s : PyStr) : PyStr :=
  ((s.dropWhile pyIsSpace).reverse.dropWhile pyIsSpace).reverse

/-- Accumulator-based worker for `pySplitWs`; `acc` holds the current word
reversed. -/
def pySplitWsAux (acc : PyStr) : PyStr → List PyStr
  | [] => if acc.isEmpty then [] else [acc.reverse]
  | c :: rest =>
    if pyIsSpace c then
      if acc.isEmpty then pySplitWsAux [] rest
      else acc.reverse :: pySplitWsAux [] rest
    else pySplitWsAux (c :: acc) rest

/-- Python `s.split()` with no argument: split on whitespace runs, dropping
empty fields. -/
def pySplitWs (s : PyStr) : List PyStr := pySplitWsAux [] s

/-- Python `s.split('\n')`: note `"".split('\n') == ['']`. -/
def splitOnNl : PyStr → List PyStr
  | [] => [[]]
  | c :: rest =>
    let r := splitOnNl rest
    if c = '\n' then [] :: r
    else
      match r with
      | [] => [[c]]
      | h :: t => (c :: h) :: t

/-- Python `xs[-1]` on a list, as an `Option`; `none` models the
`IndexError` raised on an empty list. -/
def lastTok : List PyStr → Option PyStr
  | [] => none
  | [x] => some x
  | _ :: y :: rest => lastTok (y :: rest)

/-- Python `s.lower()` (the industry keys are ASCII, where `Char.toLower`
agrees with `str.lower`). -/
def pyLower (s : PyStr) : PyStr := s.map Char.toLower

/-- The result dictionary built by `VotifyAnalyzer._parse_response`
(test_votify.py lines 163-172): every declared field is present from the
start; `primary_score` and `detailed_score` begin as Python `None`. -/
structure ParseResult where
  raw_response : PyStr
  summary : PyStr
  primary_score : Option PyStr
  detailed_score : Option PyStr
  confidence : PyStr
  analysis : PyStr
  evidence : List PyStr
  verdict : List (PyStr × PyStr)
deriving DecidableEq

/-- The initial `result` dictionary of `_parse_response`. -/
def initResult (t : PyStr) : ParseResult :=
  { raw_response := t, summary := [], primary_score := none, detailed_score := none,
    confidence := [], analysis := [], evidence := [], verdict := [] }

/-- Message of the CPython `IndexError` raised by `[-1]` on an empty list. -/
def indexErrorMsg : PyStr := pystr "list index out of range"

/-- One iteration of the `for line in lines` loop of `_parse_response`
(test_votify.py lines 177-188).  The `.error` case models the `IndexError`
raised by `score_part.strip().split()[-1]` when the split yields no token. -/
def parseLine (r : ParseResult) (line : PyStr) : Except PyStr ParseResult :=
  if pyIn (pystr "Primary Score:") line || pyIn (pystr "Match Score:") line then
    if pyIn (pystr "/5") line then
      match lastTok (pySplitWs (pyStrip (beforeFirst (pystr "/5") line))) with
      | none => .error indexErrorMsg
      | some tok => .ok { r with primary_score := some tok }
    else .ok r
  else if pyIn (pystr "Detailed Score:") line then
    if pyIn (pystr "/100") line then
      match lastTok (pySplitWs (pyStrip (beforeFirst (pystr "/100") line))) with
      | none => .error indexErrorMsg
      | some tok => .ok { r with detailed_score := some tok }
    else .ok r
  else .ok r

/-- The `for` loop of `_parse_response`, threading the result dictionary
through the lines and propagating a raised exception. -/
def parseLinesFold (r : ParseResult) : List PyStr → Except PyStr ParseResult
  | [] => .ok r
  | l :: ls =>
    match parseLine r l with
    | .error e => .error e
    | .ok r2 => parseLinesFold r2 ls

/-- `VotifyAnalyzer._parse_response` (test_votify.py lines 153-190): build
the defaulted result dictionary, then scan the lines of the response for
score labels.  Exceptions raised inside the loop surface as `.error`. -/
def parseResponse (t : PyStr) : Except PyStr ParseResult :=
  parseLinesFold (initResult t) (splitOnNl t)

/-- The four actions of the quality gate (bias_checker.py line 211). -/
inductive GateAction where
  | approve
  | approve_with_warning
  | reloop
  | reject
deriving DecidableEq

/-- An `Evaluation`: the six dimension scores of the quality gate
(bias_checker.py, BIAS_CHECKER_PROMPT sections 1-6).  Scores are Python
integers; the decision rules read all dimensions except `credibility`. -/
structure Evaluation where
  bias : Int
  hallucination : Int
  citationQuality : Int
  accuracy : Int
  credibility : Int
  satisfaction : Int
deriving DecidableEq

/-- Modelled from the spec: the repository has no executable
`DecisionEngine.decide`; the quality-gate decision is performed by the
generation model following the Decision Rules of `BIAS_CHECKER_PROMPT`
(bias_checker.py lines 225-253).  The numeric thresholds are transcribed
from that prompt text, evaluated in the worst-first order the spec fixes
(REJECT before RELOOP before APPROVE_WITH_WARNING before APPROVE); the two
non-numeric rule clauses ("any critical factual errors", "severe ethical
violations") are judgement calls of the model and are outside the numeric
embedding. -/
def decideAction (e : Evaluation) : GateAction :=
  if 70 < e.bias ∨ 60 < e.hallucination ∨ e.satisfaction < 40 then
    .reject
  else if (41 ≤ e.bias ∧ e.bias ≤ 70) ∨ (31 ≤ e.hallucination ∧ e.hallucination ≤ 60) ∨
      e.citationQuality < 50 ∨ e.accuracy < 60 ∨ (40 ≤ e.satisfaction ∧ e.satisfaction ≤ 59) then
    .reloop
  else if (21 ≤ e.bias ∧ e.bias ≤ 30) ∨ (6 ≤ e.hallucination ∧ e.hallucination ≤ 10) ∨
      (50 ≤ e.citationQuality ∧ e.citationQuality ≤ 69) ∨ (60 ≤ e.accuracy ∧ e.accuracy ≤ 69) ∨
      (60 ≤ e.satisfaction ∧ e.satisfaction ≤ 79) then
    .approve_with_warning
  else
    .approve

/-- One reloop attempt as used by the best-attempt selection
(test_votify.py lines 912-934): a 1-based attempt index and the three
scores entering the quality penalty. -/
structure Attempt where
  attempt : Nat
  bias : Int
  hallucination : Int
  satisfaction : Int
deriving DecidableEq

/-- The scalar quality penalty `bias + hallucination + (100 - satisfaction)`
(`quality_score` in test_votify.py lines 918, 925, 932; lower is better). -/
def quality_score (a : Attempt) : Int :=
  a.bias + a.hallucination + (100 - a.satisfaction)

/-- One comparison step of Python `min(..., key=...)`: the current best is
replaced only on a strictly smaller key, so ties keep the earlier element. -/
def pickBetter (b x : Attempt) : Attempt :=
  if quality_score x < quality_score b then x else b

/-- Left fold realising the Python `min` keyed by `quality_score`, over a
non-empty list split as head and tail. -/
def bestAttempt (x : Attempt) : List Attempt → Attempt
  | [] => x
  | a :: rest => bestAttempt (pickBetter x a) rest

/-- Modelled from the spec: the ReloopOrchestrator lives in backend code
outside `src/`; its best-attempt fallback is specified in spec section 4.4
and exercised by `TestReloopMechanism.test_best_attempt_selection_logic`
(test_votify.py lines 910-939), which computes the Python `min` of the
attempts keyed by `quality_score`.  `none` models the empty history, on
which Python `min` would raise. -/
def selectBestAttempt : List Attempt → Option Attempt
  | [] => none
  | x :: xs => some (bestAttempt x xs)

/-- Outcome of `check_bias` (check_bias.py lines 25-127): either the
brace-delimited block handed to `json.loads` (line 82; its decoding is not
read by any claim and is left as the raw payload), or an error document
with an error message, a `finalDecision` action, and an optional
reasoning string. -/
inductive CheckBiasOutcome where
  | json (payload : PyStr)
  | errorDoc (error : PyStr) (action : PyStr) (reasoning : Option PyStr)
deriving DecidableEq

/-- Python `re.search(r..., response_text)` for the pattern matching a brace
block (check_bias.py line 79): the match, when any, runs from the first
opening brace to the last closing brace after it. -/
def extract_json_block (t : PyStr) : Option PyStr :=
  let rest := t.dropWhile (fun c => c ≠ '{')
  let m := (rest.reverse.dropWhile (fun c => c ≠ '}')).reverse
  if m.isEmpty then none else some m

/-- Message of the CPython `AttributeError` raised by `os.time.time()`
(check_bias.py line 87): the `os` module has no `time` attribute, so the
inline fallback dictionary of lines 86-118 is never completed; the
exception is caught at line 120.  (CPython wraps the two names in single
quotes; they are omitted here.) -/
def osTimeAttrErrorMsg : PyStr := pystr "module os has no attribute time"

/-- Does the outcome carry per-dimension score fields?  An `errorDoc`
(check_bias.py lines 37-40 and 121-127) has only `error` and
`finalDecision`; only a decoded JSON payload can carry dimensions. -/
def carriesDimensionScores : CheckBiasOutcome → Bool
  | .json _ => true
  | .errorDoc _ _ _ => false

/-- `check_bias` (check_bias.py lines 25-127).  External behaviour is made
explicit: `apiKey` is the `GEMINI_API_KEY` environment read and `gen` is the outcome
of the Gemini call (`.error` models a raised exception, carrying `str(e)`).
When no brace block is found, evaluating `os.time.time()` in the fallback
branch raises `AttributeError`, which the `except` clause at line 120 turns
into the reject error document. -/
def check_bias (apiKey : Option PyStr) (gen : Except PyStr PyStr) : CheckBiasOutcome :=
  match apiKey with
  | none => .errorDoc (pystr "GEMINI_API_KEY not set") (pystr "reject") none
  | some _ =>
    match gen with
    | .error e => .errorDoc e (pystr "reject") (some (pystr "Bias check failed: " ++ e))
    | .ok text =>
      match extract_json_block text with
      | some payload => .json payload
      | none =>
        .errorDoc osTimeAttrErrorMsg (pystr "reject")
          (some (pystr "Bias check failed: " ++ osTimeAttrErrorMsg))

/-- The JSON document printed by the `__main__` block of check_bias.py. -/
inductive CliDoc where
  | noInputError
  | loadFailure (error : PyStr) (action : PyStr)
  | result (r : CheckBiasOutcome)
deriving DecidableEq

/-- Exit code and printed document of one CLI run. -/
structure CliRun where
  exitCode : Nat
  printed : CliDoc
deriving DecidableEq

/-- The `__main__` block of check_bias.py (lines 130-153): missing argv
exits 1; a failure while opening or JSON-decoding the input file prints an
error document and exits 1; otherwise the `check_bias` result is printed
and the process exits 0 — including when `check_bias` itself reported a
missing credential or an evaluation failure. -/
def cliMain (hasInputArg : Bool) (fileLoad : Except PyStr Unit)
    (apiKey : Option PyStr) (gen : Except PyStr PyStr) : CliRun :=
  if hasInputArg = false then ⟨1, .noInputError⟩
  else
    match fileLoad with
    | .error e => ⟨1, .loadFailure (pystr "Bias check failed: " ++ e) (pystr "reject")⟩
    | .ok _ => ⟨0, .result (check_bias apiKey gen)⟩

/-- The industry-to-tickers table `INDUSTRY_TICKERS`
(stock_analyzer.py lines 11-51), in insertion order (Python dicts preserve
insertion order, which the partial-match loop iterates). -/
def INDUSTRY_TICKERS : List (PyStr × List PyStr) :=
  [ (pystr "Renewable Energy", [pystr "NEE", pystr "ENPH", pystr "SEDG", pystr "FSLR"]),
    (pystr "Fossil Fuels", [pystr "XOM", pystr "CVX", pystr "COP"]),
    (pystr "Oil and Gas", [pystr "XOM", pystr "CVX", pystr "COP", pystr "OXY"]),
    (pystr "Nuclear Energy", [pystr "NEE", pystr "DUK", pystr "EXC"]),
    (pystr "Coal", [pystr "BTU", pystr "ARCH"]),
    (pystr "Energy", [pystr "XLE"]),
    (pystr "Healthcare", [pystr "XLV", pystr "UNH", pystr "JNJ", pystr "PFE"]),
    (pystr "Health Insurance", [pystr "UNH", pystr "CVS", pystr "CI", pystr "HUM"]),
    (pystr "Healthcare Services", [pystr "HCA", pystr "UNH", pystr "CVS"]),
    (pystr "Pharmaceuticals", [pystr "PFE", pystr "JNJ", pystr "MRK", pystr "ABBV"]),
    (pystr "Technology", [pystr "XLK", pystr "AAPL", pystr "MSFT", pystr "GOOGL"]),
    (pystr "Software", [pystr "MSFT", pystr "ORCL", pystr "CRM"]),
    (pystr "Hardware", [pystr "AAPL", pystr "HPQ", pystr "DELL"]),
    (pystr "Financial Services (Banks, Investment Firms)", [pystr "XLF", pystr "JPM", pystr "BAC", pystr "GS"]),
    (pystr "Banks", [pystr "JPM", pystr "BAC", pystr "WFC", pystr "C"]),
    (pystr "Investment Firms", [pystr "GS", pystr "MS", pystr "BLK"]),
    (pystr "Economy", [pystr "SPY"]),
    (pystr "Defense", [pystr "LMT", pystr "BA", pystr "RTX", pystr "NOC"]),
    (pystr "Defense Contractors", [pystr "LMT", pystr "BA", pystr "RTX", pystr "GD"]),
    (pystr "Defense Contractors (Logistics, Security, Support)", [pystr "LMT", pystr "GD", pystr "L3H"]),
    (pystr "Education", [pystr "LRN", pystr "STRA", pystr "CHGG"]),
    (pystr "Agriculture", [pystr "ADM", pystr "BG", pystr "MON"]),
    (pystr "Construction", [pystr "CAT", pystr "DE", pystr "VMC"]),
    (pystr "Intelligence Agencies & Contractors", [pystr "LDOS", pystr "CACI", pystr "SAIC"]),
    (pystr "Immigration", [pystr "GEO", pystr "CXW"]),
    (pystr "Manufacturing", [pystr "XLI", pystr "CAT", pystr "GE"]),
    (pystr "Retail", [pystr "XRT", pystr "WMT", pystr "AMZN"]),
    (pystr "Transportation", [pystr "XTN", pystr "UPS", pystr "FDX"]) ]

/-- The exact-key dictionary lookup of stock_analyzer.py lines 65-66
(keys in `INDUSTRY_TICKERS` are pairwise distinct, so dictionary access
agrees with a first-match scan). -/
def lookupExactIndustry (ind : PyStr) : Option (PyStr × List PyStr) :=
  INDUSTRY_TICKERS.find? (fun kv => kv.1 == ind)

/-- The partial-match predicate of stock_analyzer.py line 70:
case-insensitive substring containment in either direction. -/
def partialMatchKey (ind : PyStr) (kv : PyStr × List PyStr) : Bool :=
  pyIn (pyLower ind) (pyLower kv.1) || pyIn (pyLower kv.1) (pyLower ind)

/-- The first table entry related to `ind` by the partial-match predicate,
as found by the `for key, tickers in INDUSTRY_TICKERS.items()` loop
(stock_analyzer.py lines 69-71). -/
def lookupPartialIndustry (ind : PyStr) : Option (PyStr × List PyStr) :=
  INDUSTRY_TICKERS.find? (partialMatchKey ind)

/-- `get_ticker_for_industry` (stock_analyzer.py lines 54-74): exact key
match first, then first partial match, then the `SPY` default. -/
def get_ticker_for_industry (ind : PyStr) : List PyStr :=
  match lookupExactIndustry ind with
  | some kv => kv.2
  | none =>
    match lookupPartialIndustry ind with
    | some kv => kv.2
    | none => [pystr "SPY"]

/-- The dictionary returned by `validate_promise`
(validate_promise.py lines 17-59).  Fields that a branch leaves out of the
Python dictionary are `none` (the missing-credential record carries no
`success` key and no `confidence`/`analysis`; failure records carry no
`confidence`/`analysis`).  The `backend_metadata` passthrough is not read
by any claim and is not modelled. -/
structure ValidateResult where
  success : Option Bool
  error : Option PyStr
  primary_score : Int
  detailed_score : Int
  confidence : Option PyStr
  analysis : Option PyStr
deriving DecidableEq

/-- Python `int()` applied to the score slot of the parse result: `int` of
`None` raises `TypeError`; `int` of a string succeeds exactly on an
optionally signed decimal numeral surrounded by whitespace (the
digit-group underscores accepted by CPython are not modelled; no claim
depends on which strings convert). -/
def pyIntOfScore : Option PyStr → Except PyStr Int
  | none => .error (pystr "int() argument must be a string, a bytes-like object or a real number, not NoneType")
  | some s =>
    let t := pyStrip s
    let core := match t with
      | '-' :: rest => (true, rest)
      | '+' :: rest => (false, rest)
      | other => (false, other)
    if core.2.isEmpty || !core.2.all Char.isDigit then
      .error (pystr "invalid literal for int() with base 10")
    else
      let n : Int := core.2.foldl (fun acc c => 10 * acc + (c.toNat - 48 : Int)) 0
      .ok (if core.1 then -n else n)

/-- The `try` body of `validate_promise` (validate_promise.py lines 36-51):
`gen` is the outcome of the Gemini call made inside
`analyzer.analyze_backend_promise` (everything up to the response text;
`.error` carries `str(e)`).  The response text is fed to the embedded
`parseResponse`, whose possible `IndexError` propagates, as do the `int()`
conversion failures on the two score slots. -/
def validateAttempt (gen : Except PyStr PyStr) : Except PyStr (Int × Int × PyStr × PyStr) := do
  let text ← gen
  let parsed ← parseResponse text
  let p ← pyIntOfScore parsed.primary_score
  let d ← pyIntOfScore parsed.detailed_score
  pure (p, d, parsed.confidence, parsed.raw_response)

/-- `validate_promise` (validate_promise.py lines 17-59), split around the
`try` body `validateAttempt`: the missing-credential record, the success
record, or the caught-exception record. -/
def validate_promise (apiKey : Option PyStr) (gen : Except PyStr PyStr) : ValidateResult :=
  match apiKey with
  | none =>
    { success := none, error := some (pystr "GEMINI_API_KEY not set"),
      primary_score := 0, detailed_score := 0, confidence := none, analysis := none }
  | some _ =>
    match validateAttempt gen with
    | .ok (p, d, conf, raw) =>
      { success := some true, error := none, primary_score := p, detailed_score := d,
        confidence := some conf, analysis := some raw }
    | .error e =>
      { success := some false, error := some e, primary_score := 0, detailed_score := 0,
        confidence := none, analysis := none }

/-- Hypothesis on one response line: whenever the primary-score branch of
`_parse_response` fires (a primary label and a `/5` marker are present), the
text before the first `/5` contains at least one whitespace-separated
token, so the trailing `[-1]` index cannot fail. -/
def primaryTokenOk (line : PyStr) : Prop :=
  (pyIn (pystr "Primary Score:") line || pyIn (pystr "Match Score:") line) = true →
  pyIn (pystr "/5") line = true →
  pySplitWs (pyStrip (beforeFirst (pystr "/5") line)) ≠ []

/-- Hypothesis on one response line: whenever the detailed-score branch of
`_parse_response` fires (it is an `elif`, so only when the primary labels
are absent), the text before the first `/100` contains at least one token. -/
def detailedTokenOk (line : PyStr) : Prop :=
  (pyIn (pystr "Primary Score:") line || pyIn (pystr "Match Score:") line) = false →
  pyIn (pystr "Detailed Score:") line = true →
  pyIn (pystr "/100") line = true →
  pySplitWs (pyStrip (beforeFirst (pystr "/100") line)) ≠ []

theorem lastTok_of_ne_nil : ∀ (xs : List PyStr), xs ≠ [] → ∃ y, lastTok xs = some y
  | [], h => absurd rfl h
  | [x], _ => ⟨x, rfl⟩
  | _ :: y :: rest, _ => lastTok_of_ne_nil (y :: rest) (by simp)

/-- Claim C1: for every `Evaluation` (any integer scores, in particular any
combination in `[0,100]`), the decision function returns exactly one
action, and that action is one of the four values `approve`,
`approve_with_warning`, `reloop`, `reject` — never absent, never any other
value, never more than one. -/
theorem decideAction_total_unique (e : Evaluation) :
    (decideAction e = .approve ∨ decideAction e = .approve_with_warning ∨
      decideAction e = .reloop ∨ decideAction e = .reject) ∧
    ∃! a : GateAction, decideAction e = a := by
  constructor
  · unfold decideAction
    split
    · exact Or.inr (Or.inr (Or.inr rfl))
    · split
      · exact Or.inr (Or.inr (Or.inl rfl))
      · split
        · exact Or.inr (Or.inl rfl)
        · exact Or.inl rfl
  · exact ⟨decideAction e, rfl, fun a ha => ha.symm⟩

/-- Claim C3: whenever any single dimension falls in the REJECT tier
(`bias > 70`, or `hallucination > 60`, or `satisfaction < 40`), the
decision function returns `reject` regardless of every other dimension. -/
theorem reject_tier_dominates (e : Evaluation)
    (h : 70 < e.bias ∨ 60 < e.hallucination ∨ e.satisfaction < 40) :
    decideAction e = .reject := by
  unfold decideAction
  rw [if_pos h]

/-- Witness for C3, the claim's own example: `bias = 80` with
`hallucination = 5`, `citationQuality = 95`, `accuracy = 95`,
`satisfaction = 90` (credibility 50) is rejected. -/
theorem reject_tier_dominates_witness :
    (70 < (80 : Int) ∨ 60 < (5 : Int) ∨ (90 : Int) < 40) ∧
    decideAction ⟨80, 5, 95, 95, 50, 90⟩ = .reject :=
  ⟨by decide, reject_tier_dominates ⟨80, 5, 95, 95, 50, 90⟩ (by decide)⟩

/-- Claim C6: when the generation capability invoked by `check_bias` raises
(network, auth, quota, or any exception `e`), the returned document carries
the error string `str(e)` and a final decision whose action is `reject` —
in particular never `approve` or `approve_with_warning`, which would differ
from the returned action string. -/
theorem check_bias_capability_error_rejects (k e : PyStr) :
    check_bias (some k) (.error e) =
      .errorDoc e (pystr "reject") (some (pystr "Bias check failed: " ++ e)) := rfl

/-- Counterexample to claim C5: on a response with no brace-delimited
block, `check_bias` does not return the neutral-defaults record at all —
building it raises `AttributeError` at `os.time.time()` (check_bias.py
line 87) — so the result is the caught-exception reject document, which
carries no dimension scores, contradicting "contains every one of the six
dimensions, each with score 50". -/
theorem check_bias_fallback_counterexample :
    check_bias (some (pystr "key")) (.ok (pystr "no structured content here")) =
      .errorDoc osTimeAttrErrorMsg (pystr "reject")
        (some (pystr "Bias check failed: " ++ osTimeAttrErrorMsg)) ∧
    carriesDimensionScores
      (check_bias (some (pystr "key")) (.ok (pystr "no structured content here"))) = false :=
  ⟨rfl, rfl⟩

/-- Claim C5 as amended: whenever no brace-delimited block can be extracted
from the model text, `check_bias` returns the error document produced by
the exception handler — error message from the `AttributeError` raised at
`os.time.time()`, final action `reject` — and no record with per-dimension
defaults is ever produced. -/
theorem check_bias_unparsed_yields_reject_error (k t : PyStr)
    (h : extract_json_block t = none) :
    check_bias (some k) (.ok t) =
      .errorDoc osTimeAttrErrorMsg (pystr "reject")
        (some (pystr "Bias check failed: " ++ osTimeAttrErrorMsg)) := by
  simp [check_bias, h]

/-- Witness for the amended C5 at the concrete unstructured response. -/
theorem check_bias_unparsed_yields_reject_error_witness :
    extract_json_block (pystr "plain text") = none ∧
    check_bias (some (pystr "k")) (.ok (pystr "plain text")) =
      .errorDoc osTimeAttrErrorMsg (pystr "reject")
        (some (pystr "Bias check failed: " ++ osTimeAttrErrorMsg)) :=
  ⟨rfl, check_bias_unparsed_yields_reject_error (pystr "k") (pystr "plain text") rfl⟩

/-- Counterexample to claim C7: with the input-file argument present and a
readable file but `GEMINI_API_KEY` absent, the CLI prints the
configuration-error reject document yet exits with code 0, not the claimed
non-zero code. -/
theorem cliMain_missing_key_exit_zero_counterexample :
    cliMain true (.ok ()) none (.ok []) =
      ⟨0, .result (.errorDoc (pystr "GEMINI_API_KEY not set") (pystr "reject") none)⟩ ∧
    (cliMain true (.ok ()) none (.ok [])).exitCode = 0 :=
  ⟨rfl, rfl⟩

/-- Claim C7 as amended: when the credential is absent, the error is
surfaced before any generation work — the run is the same for every
generation outcome `g`, and the printed document is the reject-shaped
configuration error — but the CLI exits with code 0 (non-zero exits happen
only for a missing argv or an unreadable/undecodable input file). -/
theorem cliMain_missing_key_behavior (ld : Unit) (g : Except PyStr PyStr) :
    cliMain true (.ok ld) none g =
      ⟨0, .result (.errorDoc (pystr "GEMINI_API_KEY not set") (pystr "reject") none)⟩ := rfl

/-- Claim C8: the response parser is deterministic — parsing the same text
twice yields the same outcome.  Purity holds by construction of the
embedding: `_parse_response` reads nothing but its argument and writes no
state, so it is a function of the text alone. -/
theorem parseResponse_deterministic (t : PyStr) (r1 r2 : Except PyStr ParseResult)
    (h1 : parseResponse t = r1) (h2 : parseResponse t = r2) : r1 = r2 :=
  h1.symm.trans h2

/-- Witness for C8 at the empty string. -/
theorem parseResponse_deterministic_witness :
    parseResponse (pystr "") = parseResponse (pystr "") :=
  parseResponse_deterministic (pystr "") _ _ rfl rfl

/-- Counterexample to claim C4: `_parse_response` is not total.  On the
single-line input `"/5 Primary Score:"` the primary branch fires, the text
before the first `/5` is empty, `strip().split()` yields no token, and the
`[-1]` index raises `IndexError` instead of returning a record. -/
theorem parseResponse_raises_counterexample :
    parseResponse (pystr "/5 Primary Score:") = .error indexErrorMsg := rfl

theorem parseLine_ok (r : ParseResult) (line : PyStr)
    (h1 : primaryTokenOk line) (h2 : detailedTokenOk line) :
    ∃ r2, parseLine r line = .ok r2 ∧ r2.raw_response = r.raw_response := by
  unfold parseLine
  by_cases hp : (pyIn (pystr "Primary Score:") line || pyIn (pystr "Match Score:") line) = true
  · rw [if_pos hp]
    by_cases h5 : pyIn (pystr "/5") line = true
    · rw [if_pos h5]
      obtain ⟨y, hy⟩ := lastTok_of_ne_nil _ (h1 hp h5)
      rw [hy]
      exact ⟨_, rfl, rfl⟩
    · rw [if_neg h5]
      exact ⟨r, rfl, rfl⟩
  · rw [if_neg hp]
    by_cases hd : pyIn (pystr "Detailed Score:") line = true
    · rw [if_pos hd]
      by_cases h100 : pyIn (pystr "/100") line = true
      · rw [if_pos h100]
        obtain ⟨y, hy⟩ := lastTok_of_ne_nil _ (h2 (by simpa using hp) hd h100)
        rw [hy]
        exact ⟨_, rfl, rfl⟩
      · rw [if_neg h100]
        exact ⟨r, rfl, rfl⟩
    · rw [if_neg hd]
      exact ⟨r, rfl, rfl⟩

theorem parseLinesFold_ok (ls : List PyStr) (r : ParseResult)
    (h : ∀ line ∈ ls, primaryTokenOk line ∧ detailedTokenOk line) :
    ∃ r2, parseLinesFold r ls = .ok r2 ∧ r2.raw_response = r.raw_response := by
  induction ls generalizing r with
  | nil => exact ⟨r, rfl, rfl⟩
  | cons l ls ih =>
    obtain ⟨hl1, hl2⟩ := h l (List.mem_cons_self l ls)
    obtain ⟨r2, hr2, hraw2⟩ := parseLine_ok r l hl1 hl2
    obtain ⟨r3, hr3, hraw3⟩ := ih r2 (fun x hx => h x (List.mem_cons_of_mem l hx))
    exact ⟨r3, by simp [parseLinesFold, hr2, hr3], hraw3.trans hraw2⟩

/-- Claim C4 as amended: for every text in which each line that fires a
score branch has at least one whitespace-separated token before the first
fraction marker (`/5`, resp. `/100`), the parser returns a record with all
of its declared fields — `ParseResult` carries `raw_response`, `summary`,
`primary_score`, `detailed_score`, `confidence`, `analysis`, `evidence`,
`verdict` by construction — and raises nothing; the `raw_response` field is
the input text.  Without that proviso the `[-1]` index can raise, as the
counterexample shows. -/
theorem parseResponse_total_on_tokenful_lines (t : PyStr)
    (h : ∀ line ∈ splitOnNl t, primaryTokenOk line ∧ detailedTokenOk line) :
    ∃ r, parseResponse t = .ok r ∧ r.raw_response = t := by
  obtain ⟨r2, h2, hraw⟩ := parseLinesFold_ok (splitOnNl t) (initResult t) h
  exact ⟨r2, h2, hraw⟩

/-- Witness for the amended C4 on a well-formed score line. -/
theorem parseResponse_total_on_tokenful_lines_witness :
    (∀ line ∈ splitOnNl (pystr "Primary Score: 2/5"),
      primaryTokenOk line ∧ detailedTokenOk line) ∧
    ∃ r, parseResponse (pystr "Primary Score: 2/5") = .ok r ∧
      r.raw_response = pystr "Primary Score: 2/5" := by
  have h : ∀ line ∈ splitOnNl (pystr "Primary Score: 2/5"),
      primaryTokenOk line ∧ detailedTokenOk line := by
    unfold primaryTokenOk detailedTokenOk
    decide
  exact ⟨h, parseResponse_total_on_tokenful_lines _ h⟩

theorem bestAttempt_mem (x : Attempt) (xs : List Attempt) :
    bestAttempt x xs = x ∨ bestAttempt x xs ∈ xs := by
  induction xs generalizing x with
  | nil => exact Or.inl rfl
  | cons a rest ih =>
    simp only [bestAttempt]
    rcases ih (pickBetter x a) with h | h
    · rw [h]
      unfold pickBetter
      split
      · exact Or.inr (List.mem_cons_self a rest)
      · exact Or.inl rfl
    · exact Or.inr (List.mem_cons_of_mem a h)

theorem bestAttempt_le (x : Attempt) (xs : List Attempt) :
    quality_score (bestAttempt x xs) ≤ quality_score x ∧
    ∀ a ∈ xs, quality_score (bestAttempt x xs) ≤ quality_score a := by
  induction xs generalizing x with
  | nil => exact ⟨le_refl _, by simp⟩
  | cons a rest ih =>
    obtain ⟨h1, h2⟩ := ih (pickBetter x a)
    have hx : quality_score (pickBetter x a) ≤ quality_score x := by
      unfold pickBetter
      split <;> omega
    have ha : quality_score (pickBetter x a) ≤ quality_score a := by
      unfold pickBetter
      split <;> omega
    simp only [bestAttempt]
    refine ⟨le_trans h1 hx, ?_⟩
    intro b hb
    rcases List.mem_cons.mp hb with rfl | hb
    · exact le_trans h1 ha
    · exact h2 b hb

theorem bestAttempt_tie (x : Attempt) (xs : List Attempt)
    (hx : ∀ a ∈ xs, x.attempt < a.attempt)
    (hpw : xs.Pairwise (fun p q => p.attempt < q.attempt)) :
    ∀ a, (a = x ∨ a ∈ xs) → quality_score a = quality_score (bestAttempt x xs) →
      (bestAttempt x xs).attempt ≤ a.attempt := by
  induction xs generalizing x with
  | nil =>
    intro a ha _
    rcases ha with rfl | h
    · exact le_refl _
    · cases h
  | cons b rest ih =>
    rw [List.pairwise_cons] at hpw
    obtain ⟨hb, hpw2⟩ := hpw
    have hx2 : ∀ c ∈ rest, (pickBetter x b).attempt < c.attempt := by
      intro c hc
      unfold pickBetter
      split
      · exact hb c hc
      · exact hx c (List.mem_cons_of_mem b hc)
    have IH := ih (pickBetter x b) hx2 hpw2
    intro a ha heq
    simp only [bestAttempt] at heq ⊢
    by_cases hc : quality_score b < quality_score x
    · have hpick : pickBetter x b = b := by unfold pickBetter; rw [if_pos hc]
      have IH2 := IH
      rw [hpick] at IH2 heq ⊢
      rcases ha with ha | ha
      · -- a = x: impossible tie, the head b strictly improved on x
        have h1 := (bestAttempt_le b rest).1
        rw [ha] at heq
        omega
      · rcases List.mem_cons.mp ha with hab | har
        · exact IH2 a (Or.inl hab) heq
        · exact IH2 a (Or.inr har) heq
    · have hpick : pickBetter x b = x := by unfold pickBetter; rw [if_neg hc]
      have IH2 := IH
      rw [hpick] at IH2 heq ⊢
      rcases ha with ha | ha
      · exact IH2 a (Or.inl ha) heq
      · rcases List.mem_cons.mp ha with hab | har
        · -- a = b, kept head x ties or beats b; the selected attempt is no
          -- later than x, which precedes b
          have h1 := (bestAttempt_le x rest).1
          have hqx : quality_score x = quality_score (bestAttempt x rest) := by
            rw [hab] at heq
            omega
          have h3 := IH2 x (Or.inl rfl) hqx
          have h4 := hx b (List.mem_cons_self b rest)
          rw [hab]
          omega
        · exact IH2 a (Or.inr har) heq

/-- Claim C2: on any non-empty session history whose 1-based attempt
indices increase along the list (the orchestrator appends attempts in
order), the best-effort fallback selects an attempt of the history whose
quality penalty `bias + hallucination + (100 - satisfaction)` is minimal,
and on equal minimal penalties the one with the smaller attempt index; in
particular, for penalties 60, 45, 70 on attempts 1, 2, 3 it selects
attempt 2. -/
theorem selectBestAttempt_min_earliest :
    (∀ (x : Attempt) (xs : List Attempt),
      (x :: xs).Pairwise (fun p q => p.attempt < q.attempt) →
      ∃ b, selectBestAttempt (x :: xs) = some b ∧ (b = x ∨ b ∈ xs) ∧
        (∀ a, (a = x ∨ a ∈ xs) → quality_score b ≤ quality_score a) ∧
        (∀ a, (a = x ∨ a ∈ xs) → quality_score a = quality_score b →
          b.attempt ≤ a.attempt)) ∧
    selectBestAttempt [⟨1, 20, 20, 80⟩, ⟨2, 15, 15, 85⟩, ⟨3, 30, 20, 80⟩] =
      some ⟨2, 15, 15, 85⟩ := by
  constructor
  · intro x xs hpw
    rw [List.pairwise_cons] at hpw
    refine ⟨bestAttempt x xs, rfl, bestAttempt_mem x xs, ?_, bestAttempt_tie x xs hpw.1 hpw.2⟩
    intro a ha
    rcases ha with rfl | ha
    · exact (bestAttempt_le a xs).1
    · exact (bestAttempt_le x xs).2 a ha
  · rfl

/-- Witness for C2 at the three-attempt history with penalties 60, 45, 70. -/
theorem selectBestAttempt_min_earliest_witness :
    ([⟨1, 20, 20, 80⟩, ⟨2, 15, 15, 85⟩, ⟨3, 30, 20, 80⟩] : List Attempt).Pairwise
      (fun p q => p.attempt < q.attempt) ∧
    ∃ b, selectBestAttempt
        [(⟨1, 20, 20, 80⟩ : Attempt), ⟨2, 15, 15, 85⟩, ⟨3, 30, 20, 80⟩] = some b ∧
      (b = ⟨1, 20, 20, 80⟩ ∨ b ∈ [(⟨2, 15, 15, 85⟩ : Attempt), ⟨3, 30, 20, 80⟩]) ∧
      (∀ a, (a = ⟨1, 20, 20, 80⟩ ∨ a ∈ [(⟨2, 15, 15, 85⟩ : Attempt), ⟨3, 30, 20, 80⟩]) →
        quality_score b ≤ quality_score a) ∧
      (∀ a, (a = ⟨1, 20, 20, 80⟩ ∨ a ∈ [(⟨2, 15, 15, 85⟩ : Attempt), ⟨3, 30, 20, 80⟩]) →
        quality_score a = quality_score b → b.attempt ≤ a.attempt) := by
  have hpw : ([⟨1, 20, 20, 80⟩, ⟨2, 15, 15, 85⟩, ⟨3, 30, 20, 80⟩] : List Attempt).Pairwise
      (fun p q => p.attempt < q.attempt) := by
    simp [List.pairwise_cons]
  exact ⟨hpw, selectBestAttempt_min_earliest.1 ⟨1, 20, 20, 80⟩
    [⟨2, 15, 15, 85⟩, ⟨3, 30, 20, 80⟩] hpw⟩

theorem industry_tickers_values_ne_nil :
    ∀ kv ∈ INDUSTRY_TICKERS, kv.2 ≠ [] := by decide

/-- Claim C9: for every industry name, `get_ticker_for_industry` returns a
non-empty list of tickers — the table entry on an exact key match,
otherwise the first table entry whose key is related to the query by
case-insensitive substring containment in either direction, otherwise
exactly `["SPY"]` — and, being a total function of its argument, it never
raises. -/
theorem get_ticker_for_industry_spec (ind : PyStr) :
    get_ticker_for_industry ind ≠ [] ∧
    (∀ kv, lookupExactIndustry ind = some kv → get_ticker_for_industry ind = kv.2) ∧
    (lookupExactIndustry ind = none →
      ∀ kv, lookupPartialIndustry ind = some kv → get_ticker_for_industry ind = kv.2) ∧
    (lookupExactIndustry ind = none → lookupPartialIndustry ind = none →
      get_ticker_for_industry ind = [pystr "SPY"]) := by
  refine ⟨?_, ?_, ?_, ?_⟩
  · unfold get_ticker_for_industry
    cases h1 : lookupExactIndustry ind with
    | some kv =>
      exact industry_tickers_values_ne_nil kv (List.mem_of_find?_eq_some h1)
    | none =>
      cases h2 : lookupPartialIndustry ind with
      | some kv =>
        exact industry_tickers_values_ne_nil kv (List.mem_of_find?_eq_some h2)
      | none => simp
  · intro kv h1
    unfold get_ticker_for_industry
    rw [h1]
  · intro h1 kv h2
    unfold get_ticker_for_industry
    rw [h1, h2]
  · intro h1 h2
    unfold get_ticker_for_industry
    rw [h1, h2]

/-- Claim C10: `validate_promise` always returns a dictionary and never
propagates an exception: with the credential absent the result is the
fixed error record with both scores 0, independent of any analysis
outcome (none is invoked); when the analysis raises `e` the result is the
`success = false` record carrying `e` and both scores 0; and in general
every result either has `success = true` or carries an error message with
both scores 0. -/
theorem validate_promise_never_raises :
    (∀ g g2 : Except PyStr PyStr, validate_promise none g = validate_promise none g2) ∧
    (∀ g : Except PyStr PyStr,
      (validate_promise none g).error = some (pystr "GEMINI_API_KEY not set") ∧
      (validate_promise none g).primary_score = 0 ∧
      (validate_promise none g).detailed_score = 0) ∧
    (∀ k e : PyStr,
      validate_promise (some k) (.error e) =
        { success := some false, error := some e, primary_score := 0, detailed_score := 0,
          confidence := none, analysis := none }) ∧
    (∀ (k : PyStr) (g : Except PyStr PyStr),
      (validate_promise (some k) g).success = some true ∨
      ((validate_promise (some k) g).success = some false ∧
        (validate_promise (some k) g).primary_score = 0 ∧
        (validate_promise (some k) g).detailed_score = 0 ∧
        (validate_promise (some k) g).error.isSome = true)) := by
  refine ⟨fun g g2 => rfl, fun g => ⟨rfl, rfl, rfl⟩, fun k e => rfl, ?_⟩
  intro k g
  unfold validate_promise
  cases h : validateAttempt g with
  | ok v =>
    obtain ⟨p, d, conf, raw⟩ := v
    left
    simp
  | error e =>
    right
    simp
